import Mathlib

/-!
Shallow embedding of the uptrace/otel-js-web-load-testing repository:
the browser-side synthetic telemetry generator
(`src/examples/load-testing/index.js`) and the collector stub
(`src/backend/main.go`), together with proofs about the claims of the
specification.

Modelling conventions:
* JavaScript numbers coming from `parseInt` are modelled as `Option Int`
  (`none` models `NaN`); counters are `Nat` / `Int` as appropriate.
* `Math.random()` draws are modelled as a rational `r` with `0 ≤ r < 1`;
  `Math.floor` on these small non-negative values is `Int.floor` (exact,
  since all intermediate values are far below the double mantissa limit
  and denominators are at most 4 where floors are taken of quotients).
* The event-loop is modelled as an explicit operation alphabet `Op`
  acting on a state `GenState` by a step function; `setTimeout`
  callbacks become explicit `timerFire` / `complete` operations.
-/

namespace LoadTesting

/-- The mutable configuration object (`config`, index.js lines 122-126). -/
structure Config where
  minInterval : Int
  maxInterval : Int
  batchSize : Int
deriving DecidableEq, Repr

/-- Initial configuration: `minInterval: 100, maxInterval: 1000, batchSize: 1`. -/
def initialConfig : Config := ⟨100, 1000, 1⟩

/-- Candidate values read from the three UI fields by `updateConfig`
(index.js lines 334-336); `none` models a `parseInt` result of `NaN`. -/
structure Candidate where
  minInterval : Option Int
  maxInterval : Option Int
  batchSize : Option Int
deriving DecidableEq, Repr

/-- `updateConfig` (index.js lines 333-346): each field is applied only if
its candidate parsed to a number and passes its bound check; the
`maxInterval` check reads `config.minInterval` after the `minInterval`
candidate has (possibly) been applied, exactly as in the source order. -/
def updateConfig (c : Config) (cand : Candidate) : Config :=
  let c1 := match cand.minInterval with
    | some v => if 10 ≤ v then { c with minInterval := v } else c
    | none => c
  let c2 := match cand.maxInterval with
    | some v => if c1.minInterval ≤ v then { c1 with maxInterval := v } else c1
    | none => c1
  match cand.batchSize with
    | some v => if 1 ≤ v then { c2 with batchSize := v } else c2
    | none => c2

/-- Generator state: the module-level mutable variables of index.js
(lines 129-132) plus the bookkeeping needed to observe the claims:
`pending` holds the sequence numbers of generated requests whose
deferred completion callback has not fired yet, `stopTotals` records the
`total.spans` value of every emitted "stopped" log event, and `surfaced`
records the sequence numbers of requests whose trace ID was printed at
completion (index.js lines 290-293). -/
structure GenState where
  config : Config
  isRunning : Bool
  spanCount : Nat
  activeSpans : Int
  timerPending : Bool
  pending : List Nat
  stopTotals : List Nat
  surfaced : List Nat
deriving DecidableEq, Repr

/-- The initial module state: not running, all counters zero. -/
def initState : GenState :=
  { config := initialConfig, isRunning := false, spanCount := 0,
    activeSpans := 0, timerPending := false, pending := [],
    stopTotals := [], surfaced := [] }

/-- The synchronous part of `generateSpan` (index.js lines 196-198 and
222): increment `spanCount`, increment `activeSpans`, and schedule the
deferred completion of the new request (whose sequence number is the
incremented `spanCount`, recorded as the `span.number` attribute). -/
def genOne (s : GenState) : GenState :=
  { s with spanCount := s.spanCount + 1,
           activeSpans := s.activeSpans + 1,
           pending := (s.spanCount + 1) :: s.pending }

/-- The batch loop of `scheduleNext` (index.js lines 320-322): call
`generateSpan` `n` times in order. -/
def genBatch (s : GenState) : Nat → GenState
  | 0 => s
  | n + 1 => genBatch (genOne s) n

/-- `scheduleNext` (index.js lines 316-328): return if not running,
otherwise generate `config.batchSize` spans and arm the next timer. -/
def scheduleNext (s : GenState) : GenState :=
  if s.isRunning then
    { genBatch s s.config.batchSize.toNat with timerPending := true }
  else s

/-- `startLoadTest` (index.js lines 298-331): no-op when already running;
otherwise set running, reset `spanCount` and `activeSpans` to zero, and
invoke `scheduleNext` synchronously (so the first batch is generated
immediately, before any interval elapses). -/
def startLoadTest (s : GenState) : GenState :=
  if s.isRunning then s
  else scheduleNext { s with isRunning := true, spanCount := 0, activeSpans := 0 }

/-- `stopLoadTest` (index.js lines 348-367): no-op when not running;
otherwise clear the running flag, cancel the pending timer, and emit one
"stopped" log event carrying `total.spans = spanCount`. -/
def stopLoadTest (s : GenState) : GenState :=
  if s.isRunning then
    { s with isRunning := false, timerPending := false,
             stopTotals := s.spanCount :: s.stopTotals }
  else s

/-- The deferred completion callback of `generateSpan` (index.js lines
253-294) for the in-flight request with sequence number `seq`: decrement
`activeSpans`, remove the request from the in-flight set, and print the
trace ID when the current global `spanCount` is a multiple of 10 (the
code tests the global counter at completion time, not the completing
request's own number). The membership guard models that only a
previously scheduled callback can fire, and fires once. -/
def completeOne (s : GenState) (seq : Nat) : GenState :=
  if seq ∈ s.pending then
    { s with activeSpans := s.activeSpans - 1,
             pending := s.pending.erase seq,
             surfaced := if s.spanCount % 10 = 0 then seq :: s.surfaced
                         else s.surfaced }
  else s

/-- The operations the browser event-loop can perform on the generator:
the two button handlers, an armed batch timer firing, a deferred
request-completion callback firing, and a configuration update. -/
inductive Op where
  | start : Op
  | stop : Op
  | timerFire : Op
  | complete : Nat → Op
  | update : Candidate → Op

/-- One event-loop step. A `timerFire` only has an effect while a timer
is armed (a cleared timeout never fires). -/
def step (s : GenState) : Op → GenState
  | .start => startLoadTest s
  | .stop => stopLoadTest s
  | .timerFire => if s.timerPending then scheduleNext s else s
  | .complete seq => completeOne s seq
  | .update cand => { s with config := updateConfig s.config cand }

/-- Run a sequence of event-loop operations from a state. -/
def run (s : GenState) (ops : List Op) : GenState := ops.foldl step s

/-! ### Per-request randomness (index.js lines 162-168, 226, 235, 324-327)

`Math.random()` is modelled by a rational draw `r` with `0 ≤ r < 1`. -/

/-- `randomDuration` (index.js lines 166-168):
`Math.floor(Math.random() * 500) + 50`. -/
def randomDuration (r : ℚ) : Nat := (⌊r * 500⌋).toNat + 50

/-- The number of events attached to the primary span (index.js line
226): `Math.floor(Math.random() * 3) + 1`. -/
def numEvents (r : ℚ) : Nat := (⌊r * 3⌋).toNat + 1

/-- The delay before the next scheduled cycle (index.js lines 324-327):
`Math.floor(Math.random() * (maxInterval - minInterval)) + minInterval`. -/
def nextIntervalDelay (r : ℚ) (c : Config) : Int :=
  ⌊r * ((c.maxInterval - c.minInterval : Int) : ℚ)⌋ + c.minInterval

/-- The completion delay of the occasional child span (index.js line
249): `duration / 2`, an exact JavaScript float division. -/
def childDelay (duration : Nat) : ℚ := (duration : ℚ) / 2

/-- The events attached to the primary span by the loop at index.js
lines 227-232: event `i` (0-based, `i < n`) carries `event.index = i`
and the relative-timestamp label
`Math.floor(duration * (i + 1) / (n + 1))` milliseconds. The float
quotient has denominator `n + 1 ≤ 4`, so its floor equals the natural
division. -/
def spanEvents (duration : Nat) (n : Nat) : List (Nat × Nat) :=
  (List.range n).map (fun i => (i, duration * (i + 1) / (n + 1)))

/-! ### Deferred completion effects (index.js lines 253-294) -/

/-- Severity numbers of `@opentelemetry/api-logs` used by `emitLog`. -/
def severityINFO : Nat := 9

/-- Severity number `SeverityNumber.ERROR` of `@opentelemetry/api-logs`. -/
def severityERROR : Nat := 17

/-- A structured log record as emitted by `emitLog`. -/
structure LogEntry where
  severity : Nat
  body : String
deriving DecidableEq, Repr

/-- The terminal status set on the primary span: `setStatus({code: 2,
message})` (error) or `setStatus({code: 1})` (ok). -/
inductive SpanStatus where
  | error : String → SpanStatus
  | ok : SpanStatus
deriving DecidableEq, Repr

/-- One `requestDuration.record` call: value and its tags. -/
structure HistRecord where
  value : Nat
  method : String
  endpoint : String
  statusCode : Nat
deriving DecidableEq, Repr

/-- The observable effects of the deferred completion callback. -/
structure CompletionEffects where
  status : SpanStatus
  errorIncrements : List (Nat × String)
  logRecords : List LogEntry
  histRecords : List HistRecord
deriving DecidableEq, Repr

/-- The deferred completion callback of `generateSpan` (index.js lines
253-294), as a function of the request attributes frozen at generation
time: on `statusCode ≥ 400` set an error status with message
`HTTP <code> Error`, add one `errorCounter` increment tagged by status
code and endpoint, and emit one error-level log; otherwise set the ok
status and emit one info-level log reporting the duration. In both
branches record the duration into the latency histogram tagged by
method, endpoint and status code. -/
def completionEffects (method endpoint : String) (statusCode duration : Nat) :
    CompletionEffects :=
  if 400 ≤ statusCode then
    { status := .error ("HTTP " ++ toString statusCode ++ " Error"),
      errorIncrements := [(statusCode, endpoint)],
      logRecords := [⟨severityERROR,
        "Error: " ++ method ++ " " ++ endpoint ++ " returned " ++
          toString statusCode⟩],
      histRecords := [⟨duration, method, endpoint, statusCode⟩] }
  else
    { status := .ok,
      errorIncrements := [],
      logRecords := [⟨severityINFO,
        "Completed " ++ method ++ " " ++ endpoint ++ " in " ++
          toString duration ++ "ms"⟩],
      histRecords := [⟨duration, method, endpoint, statusCode⟩] }

end LoadTesting

namespace Backend

/-! ### The collector stub (`src/backend/main.go`) -/

/-- The terminal response produced by one handler invocation: status
code, response headers, response body, and the number of request-body
bytes drained before responding. -/
structure HttpResponse where
  status : Nat
  headers : List (String × String)
  body : String
  drained : Nat
deriving DecidableEq, Repr

/-- The four CORS headers set unconditionally at the top of the handler
(`main.go` lines 13-16). -/
def corsHeaders : List (String × String) :=
  [("Access-Control-Allow-Origin", "*"),
   ("Access-Control-Allow-Methods", "POST, OPTIONS"),
   ("Access-Control-Allow-Headers", "*"),
   ("Access-Control-Max-Age", "86400")]

/-- The handler installed by `registerEndpoint` (`main.go` lines 12-37),
identical for `/v1/traces`, `/v1/logs` and `/v1/metrics`: `OPTIONS` gets
`204 No Content` and no body; any other non-`POST` method gets `405`
with an `Allow: POST` header (and the `http.Error` text body); `POST`
drains the whole request body and gets `200` with body `\x7b\x7d`.
Being a total function into one `HttpResponse`, the model sends exactly
one terminal response per request. -/
def handleEndpoint (method : String) (reqBody : List UInt8) : HttpResponse :=
  if method = "OPTIONS" then
    { status := 204, headers := corsHeaders, body := "", drained := 0 }
  else if method ≠ "POST" then
    { status := 405, headers := corsHeaders ++ [("Allow", "POST")],
      body := "method not allowed" ++ "\n", drained := 0 }
  else
    { status := 200, headers := corsHeaders, body := "\x7b\x7d",
      drained := reqBody.length }

/-- The three registered collector routes (`main.go` lines 40-42). -/
def routes : List String := ["/v1/traces", "/v1/logs", "/v1/metrics"]

end Backend

namespace LoadTesting

/-! ### Helper lemmas about the generator state machine -/

theorem genBatch_config (n : Nat) : ∀ s, (genBatch s n).config = s.config := by
  induction n with
  | zero => intro s; rfl
  | succ n ih => intro s; exact ih (genOne s)

theorem genBatch_isRunning (n : Nat) :
    ∀ s, (genBatch s n).isRunning = s.isRunning := by
  induction n with
  | zero => intro s; rfl
  | succ n ih => intro s; exact ih (genOne s)

theorem genBatch_timerPending (n : Nat) :
    ∀ s, (genBatch s n).timerPending = s.timerPending := by
  induction n with
  | zero => intro s; rfl
  | succ n ih => intro s; exact ih (genOne s)

theorem genBatch_stopTotals (n : Nat) :
    ∀ s, (genBatch s n).stopTotals = s.stopTotals := by
  induction n with
  | zero => intro s; rfl
  | succ n ih => intro s; exact ih (genOne s)

theorem genBatch_spanCount (n : Nat) :
    ∀ s, (genBatch s n).spanCount = s.spanCount + n := by
  induction n with
  | zero => intro s; rfl
  | succ n ih => intro s; rw [genBatch, ih (genOne s)]; simp [genOne]; omega

theorem genBatch_activeSpans (n : Nat) :
    ∀ s, (genBatch s n).activeSpans = s.activeSpans + (n : Int) := by
  induction n with
  | zero => intro s; simp [genBatch]
  | succ n ih =>
      intro s; rw [genBatch, ih (genOne s)]; simp [genOne]; ring

theorem genBatch_pending_length (n : Nat) :
    ∀ s, (genBatch s n).pending.length = s.pending.length + n := by
  induction n with
  | zero => intro s; rfl
  | succ n ih => intro s; rw [genBatch, ih (genOne s)]; simp [genOne]; omega

theorem scheduleNext_config (s : GenState) :
    (scheduleNext s).config = s.config := by
  unfold scheduleNext; split
  · exact genBatch_config _ _
  · rfl

theorem startLoadTest_config (s : GenState) :
    (startLoadTest s).config = s.config := by
  unfold startLoadTest; split
  · rfl
  · rw [scheduleNext_config]

theorem stopLoadTest_config (s : GenState) :
    (stopLoadTest s).config = s.config := by
  unfold stopLoadTest; split <;> rfl

theorem completeOne_config (s : GenState) (seq : Nat) :
    (completeOne s seq).config = s.config := by
  unfold completeOne; split <;> rfl

/-- Configuration bounds preserved by a single `updateConfig` call. -/
theorem updateConfig_bounds (c : Config) (cand : Candidate)
    (h1 : 10 ≤ c.minInterval) (h2 : 1 ≤ c.batchSize) :
    10 ≤ (updateConfig c cand).minInterval ∧
    1 ≤ (updateConfig c cand).batchSize := by
  obtain ⟨mi, ma, bs⟩ := cand
  unfold updateConfig
  cases mi <;> cases ma <;> cases bs <;> dsimp only <;>
    first
      | exact ⟨h1, h2⟩
      | (split_ifs <;> simp_all <;> omega)

/-- One event-loop step preserves the configuration bounds. -/
theorem step_config_bounds (s : GenState) (op : Op)
    (h1 : 10 ≤ s.config.minInterval) (h2 : 1 ≤ s.config.batchSize) :
    10 ≤ (step s op).config.minInterval ∧
    1 ≤ (step s op).config.batchSize := by
  cases op with
  | start => rw [step, startLoadTest_config]; exact ⟨h1, h2⟩
  | stop => rw [step, stopLoadTest_config]; exact ⟨h1, h2⟩
  | timerFire =>
      rw [step]; split
      · rw [scheduleNext_config]; exact ⟨h1, h2⟩
      · exact ⟨h1, h2⟩
  | complete seq => rw [step, completeOne_config]; exact ⟨h1, h2⟩
  | update cand => exact updateConfig_bounds s.config cand h1 h2

/-! ### Claim C1 -/

/-- Claim C1 as stated is false: with the initial configuration
(`batchSize = 1`), calling `stopLoadTest` immediately after
`startLoadTest` — before any timer has fired — leaves `spanCount = 1`
(the first batch is generated synchronously inside `startLoadTest`), and
the single emitted "stopped" event carries total 1, not 0. -/
theorem c1_counterexample :
    (run initState [Op.start, Op.stop]).spanCount = 1 ∧
    (run initState [Op.start, Op.stop]).stopTotals = [1] ∧
    ¬((run initState [Op.start, Op.stop]).spanCount = 0 ∧
      (run initState [Op.start, Op.stop]).stopTotals = [0]) := by
  decide

/-- Claim C1 (amended): calling `stop()` immediately after `start()`,
before any scheduled interval elapses, generates exactly `batchSize`
simulated requests (the first batch runs synchronously during
`start()`), and exactly one "stopped" event is emitted, carrying total
count `batchSize` — for every configuration with `batchSize ≥ 1`. -/
theorem c1_amended (cfg : Config) (h : 1 ≤ cfg.batchSize) :
    (run { initState with config := cfg } [Op.start, Op.stop]).spanCount =
      cfg.batchSize.toNat ∧
    (run { initState with config := cfg } [Op.start, Op.stop]).stopTotals =
      [cfg.batchSize.toNat] := by
  have hrun : run { initState with config := cfg } [Op.start, Op.stop] =
      stopLoadTest (startLoadTest { initState with config := cfg }) := rfl
  rw [hrun]
  rw [startLoadTest, if_neg (by simp [initState])]
  rw [scheduleNext, if_pos (by simp)]
  have hcfg : ({ initState with config := cfg } : GenState).config = cfg := rfl
  rw [stopLoadTest]
  rw [if_pos (by simp [genBatch_isRunning])]
  simp [genBatch_spanCount, genBatch_stopTotals, initState]

/-- Witness for `c1_amended` at `batchSize = 3`. -/
theorem c1_amended_witness :
    (1 : Int) ≤ 3 ∧
    (run { initState with config := ⟨100, 1000, 3⟩ } [Op.start, Op.stop]).spanCount = 3 ∧
    (run { initState with config := ⟨100, 1000, 3⟩ } [Op.start, Op.stop]).stopTotals = [3] :=
  ⟨by decide, c1_amended ⟨100, 1000, 3⟩ (by decide)⟩

/-! ### Claim C2 -/

/-- Claim C2 as stated is false: a single `updateConfig` from the
initial configuration with candidate `minInterval = 2000` (the other two
fields parsing to `NaN`) is accepted (2000 ≥ 10) and yields the
reachable state `minInterval = 2000, maxInterval = 1000`, violating
`maxInterval ≥ minInterval`. -/
theorem c2_counterexample :
    (run initState [Op.update ⟨some 2000, none, none⟩]).config.maxInterval <
      (run initState [Op.update ⟨some 2000, none, none⟩]).config.minInterval := by
  decide

/-- Claim C2 (amended): for every sequence of event-loop operations
(updates with arbitrary candidates, interleaved with start/stop, timer
fires and completions) the configuration always satisfies
`minInterval ≥ 10` and `batchSize ≥ 1`; but `maxInterval ≥ minInterval`
is not an invariant (an accepted `minInterval` above the current
`maxInterval`, with no valid `maxInterval` candidate alongside it, leaves
`maxInterval < minInterval`). -/
theorem c2_amended (ops : List Op) :
    10 ≤ (run initState ops).config.minInterval ∧
    1 ≤ (run initState ops).config.batchSize := by
  suffices h : ∀ s : GenState, 10 ≤ s.config.minInterval →
      1 ≤ s.config.batchSize →
      10 ≤ (run s ops).config.minInterval ∧
      1 ≤ (run s ops).config.batchSize from
    h initState (by decide) (by decide)
  induction ops with
  | nil => intro s h1 h2; exact ⟨h1, h2⟩
  | cons op ops ih =>
      intro s h1 h2
      have hstep := step_config_bounds s op h1 h2
      exact ih (step s op) hstep.1 hstep.2

/-! ### Claim C3 -/

/-- Claim C3 as stated is false: start the test (one span generated, one
in flight), stop it, start it again (`startLoadTest` resets
`activeSpans` to 0 while the first run's completion is still in flight,
and generates one new span), then let both in-flight completions fire —
the active-span count ends at `-1`, which is negative. -/
theorem c3_counterexample :
    (run initState
      [Op.start, Op.stop, Op.start, Op.complete 1, Op.complete 1]).activeSpans
      < 0 := by
  decide

/-- Reachability restricted to event-loop histories in which `start` is
only invoked while no deferred completion is in flight (so that the
counter reset inside `startLoadTest` cannot orphan a pending
decrement). -/
inductive SafeReach : GenState → Prop where
  | init : SafeReach initState
  | next (s : GenState) (op : Op) : SafeReach s →
      (op = Op.start → s.pending = []) → SafeReach (step s op)

/-- Under `SafeReach`, the active-span counter always equals the number
of in-flight completions. -/
theorem safeReach_active_eq_pending (s : GenState) (h : SafeReach s) :
    s.activeSpans = (s.pending.length : Int) := by
  induction h with
  | init => rfl
  | next s op hs hstart ih =>
      cases op with
      | start =>
          have hpend := hstart rfl
          rw [step, startLoadTest]
          split
          · exact ih
          · rw [scheduleNext, if_pos (by simp)]
            simp [genBatch_activeSpans, genBatch_pending_length, hpend]
      | stop => rw [step, stopLoadTest]; split <;> simpa using ih
      | timerFire =>
          rw [step]; split
          · rw [scheduleNext]; split
            · simp [genBatch_activeSpans, genBatch_pending_length, ih]
            · exact ih
          · exact ih
      | complete seq =>
          rw [step, completeOne]; split
          · next hmem =>
              have hpos : 0 < s.pending.length := List.length_pos.mpr
                (List.ne_nil_of_mem hmem)
              simp only [List.length_erase_of_mem hmem]
              rw [ih]
              omega
          · exact ih
      | update cand => simpa using ih

/-- Claim C3 (amended): a full uninterrupted request lifecycle
(generation followed by its own deferred completion) is net zero on the
active-span count; and in every interleaving of start, stop, timer fires
and in-flight completions in which `start` is only called with no
completions pending, the active count is never negative. (Calling
`start()` while completions of an earlier run are still in flight can
drive the count negative, because `startLoadTest` resets it to zero.) -/
theorem c3_amended :
    (∀ s : GenState,
      (completeOne (genOne s) (s.spanCount + 1)).activeSpans = s.activeSpans) ∧
    (∀ s : GenState, SafeReach s → 0 ≤ s.activeSpans) := by
  constructor
  · intro s
    have hmem : s.spanCount + 1 ∈ (genOne s).pending :=
      List.mem_cons_self _ _
    rw [completeOne, if_pos hmem]
    simp [genOne]
  · intro s h
    rw [safeReach_active_eq_pending s h]
    exact Int.ofNat_nonneg _

/-- Witness for `c3_amended` at the initial state. -/
theorem c3_amended_witness :
    (completeOne (genOne initState) 1).activeSpans = initState.activeSpans ∧
    0 ≤ initState.activeSpans :=
  ⟨c3_amended.1 initState, c3_amended.2 initState SafeReach.init⟩

/-! ### Claim C4 -/

/-- Claim C4 as stated is false: start the test (request #1 generated),
let the timer fire nine more times (global `spanCount` reaches 10), then
let request #1's deferred completion fire. The code tests the *global*
`spanCount % 10` at completion time, which is 0, so request #1's trace
ID is surfaced — even though its own sequence number 1 is not a multiple
of 10. -/
theorem c4_counterexample :
    (run initState
      ([Op.start] ++ List.replicate 9 Op.timerFire ++ [Op.complete 1])).surfaced
      = [1] ∧ ¬(1 % 10 = 0) := by
  decide

/-- Claim C4 (amended): at the completion of an in-flight request `seq`,
the trace ID is surfaced if and only if the *global* span counter at
that moment is a multiple of 10 — independently of the completing
request's own sequence number. -/
theorem c4_amended (s : GenState) (seq : Nat) (h : seq ∈ s.pending) :
    ((completeOne s seq).surfaced = seq :: s.surfaced ↔ s.spanCount % 10 = 0) ∧
    ((completeOne s seq).surfaced = s.surfaced ↔ ¬(s.spanCount % 10 = 0)) := by
  rw [completeOne, if_pos h]
  by_cases hmod : s.spanCount % 10 = 0
  · rw [if_pos hmod]
    dsimp only
    refine ⟨⟨fun _ => hmod, fun _ => rfl⟩, ?_, ?_⟩
    · intro he
      exact absurd he (List.cons_ne_self _ _)
    · intro hm
      exact absurd hmod hm
  · rw [if_neg hmod]
    dsimp only
    refine ⟨⟨?_, fun hm => absurd hm hmod⟩, fun _ => hmod, fun _ => rfl⟩
    intro he
    exact absurd he.symm (List.cons_ne_self _ _)

/-- Witness for `c4_amended`: a state with request 5 in flight and
global counter 10 — the completion surfaces the trace ID of request 5. -/
theorem c4_amended_witness :
    5 ∈ ({ initState with pending := [5], spanCount := 10 } : GenState).pending ∧
    ((completeOne { initState with pending := [5], spanCount := 10 } 5).surfaced =
        5 :: ({ initState with pending := [5], spanCount := 10 } : GenState).surfaced ↔
      ({ initState with pending := [5], spanCount := 10 } : GenState).spanCount % 10 = 0) :=
  ⟨by decide, (c4_amended { initState with pending := [5], spanCount := 10 } 5
    (by decide)).1⟩

/-! ### Claim C5 -/

/-- Claim C5 (confirmed): `updateConfig` applies each candidate field by
its own predicate — a `minInterval` candidate is applied iff it parsed
to a number `≥ 10`; a `maxInterval` candidate iff it parsed to a number
not less than the current `minInterval` (the value in force when its
check runs, i.e. after the `minInterval` candidate was processed); a
`batchSize` candidate iff it parsed to a number `≥ 1`. A failing field
is left unchanged, and an update in which every candidate is invalid
leaves the whole configuration unchanged. -/
theorem c5_updateConfig_fields (c : Config) (cand : Candidate) :
    ((∀ v, cand.minInterval = some v → ((10 ≤ v →
        (updateConfig c cand).minInterval = v) ∧ (v < 10 →
        (updateConfig c cand).minInterval = c.minInterval))) ∧
      (cand.minInterval = none →
        (updateConfig c cand).minInterval = c.minInterval)) ∧
    ((∀ v, cand.maxInterval = some v →
        (((updateConfig c cand).minInterval ≤ v →
          (updateConfig c cand).maxInterval = v) ∧
         (v < (updateConfig c cand).minInterval →
          (updateConfig c cand).maxInterval = c.maxInterval))) ∧
      (cand.maxInterval = none →
        (updateConfig c cand).maxInterval = c.maxInterval)) ∧
    ((∀ v, cand.batchSize = some v → ((1 ≤ v →
        (updateConfig c cand).batchSize = v) ∧ (v < 1 →
        (updateConfig c cand).batchSize = c.batchSize))) ∧
      (cand.batchSize = none →
        (updateConfig c cand).batchSize = c.batchSize)) ∧
    ((∀ v, cand.minInterval = some v → v < 10) →
      (∀ v, cand.maxInterval = some v → v < c.minInterval) →
      (∀ v, cand.batchSize = some v → v < 1) →
      updateConfig c cand = c) := by
  obtain ⟨mi, ma, bs⟩ := cand
  unfold updateConfig
  cases mi <;> cases ma <;> cases bs <;> dsimp only <;>
    first
      | (split_ifs <;> simp_all <;> omega)
      | simp_all

/-- Witness for `c5_updateConfig_fields` on the initial configuration
with candidates `minInterval = 50`, `maxInterval = 60`, `batchSize = 2`
(all valid; note 60 is compared with the just-applied minimum 50). -/
theorem c5_witness :
    (updateConfig initialConfig ⟨some 50, some 60, some 2⟩).minInterval = 50 ∧
    (updateConfig initialConfig ⟨some 50, some 60, some 2⟩).maxInterval = 60 ∧
    (updateConfig initialConfig ⟨some 50, some 60, some 2⟩).batchSize = 2 := by
  have h := c5_updateConfig_fields initialConfig ⟨some 50, some 60, some 2⟩
  have hmin : (updateConfig initialConfig ⟨some 50, some 60, some 2⟩).minInterval = 50 :=
    (h.1.1 50 rfl).1 (by decide)
  refine ⟨hmin, (h.2.1.1 60 rfl).1 (by rw [hmin]; decide), (h.2.2.1.1 2 rfl).1 (by decide)⟩

/-! ### Claim C6 -/

/-- Claim C6 (confirmed): for a simulated request with status code
`≥ 400` the deferred completion sets the error status with message
`HTTP <code> Error`, performs exactly one error-counter increment tagged
by status code and endpoint, and emits exactly one log record, at error
level; for a status code `< 400` it sets the ok status, performs zero
error-counter increments, and emits exactly one log record, at info
level, whose body reports the duration. In both branches exactly one
latency-histogram record is made, carrying the duration and tagged by
method, endpoint and status code. -/
theorem c6_completion (m e : String) (sc dur : Nat) :
    (400 ≤ sc →
      (completionEffects m e sc dur).status =
        .error ("HTTP " ++ toString sc ++ " Error") ∧
      (completionEffects m e sc dur).errorIncrements = [(sc, e)] ∧
      (completionEffects m e sc dur).logRecords.length = 1 ∧
      ∀ l ∈ (completionEffects m e sc dur).logRecords,
        l.severity = severityERROR) ∧
    (sc < 400 →
      (completionEffects m e sc dur).status = .ok ∧
      (completionEffects m e sc dur).errorIncrements = [] ∧
      (completionEffects m e sc dur).logRecords =
        [⟨severityINFO,
          "Completed " ++ m ++ " " ++ e ++ " in " ++ toString dur ++ "ms"⟩]) ∧
    (completionEffects m e sc dur).histRecords = [⟨dur, m, e, sc⟩] := by
  unfold completionEffects
  split_ifs with hsc
  · refine ⟨fun _ => ⟨rfl, rfl, rfl, ?_⟩, fun hlt => absurd hsc (by omega), rfl⟩
    intro l hl
    rw [List.mem_singleton] at hl
    rw [hl]
  · exact ⟨fun hge => absurd hge hsc, fun _ => ⟨rfl, rfl, rfl⟩, rfl⟩

/-- Witness for `c6_completion` in both classifications: a 500 on
`/api/orders` and a 200 on `/api/users`. -/
theorem c6_witness :
    (completionEffects "GET" "/api/orders" 500 120).errorIncrements =
      [(500, "/api/orders")] ∧
    (completionEffects "GET" "/api/users" 200 80).errorIncrements = [] ∧
    (completionEffects "GET" "/api/users" 200 80).status = SpanStatus.ok :=
  ⟨((c6_completion "GET" "/api/orders" 500 120).1 (by decide)).2.1,
   ((c6_completion "GET" "/api/users" 200 80).2.1 (by decide)).2.1,
   ((c6_completion "GET" "/api/users" 200 80).2.1 (by decide)).1⟩

/-! ### Claim C7 -/

/-- Claim C7 (confirmed): for every random draw `r ∈ [0,1)` the number
of events attached to the primary span is between 1 and 3 inclusive,
and the event at 0-based index `i` carries its index together with the
relative-timestamp label `⌊duration * (i+1) / (numEvents+1)⌋`
milliseconds. -/
theorem c7_spanEvents (r : ℚ) (duration : Nat) (h0 : 0 ≤ r) (h1 : r < 1) :
    1 ≤ numEvents r ∧ numEvents r ≤ 3 ∧
    (spanEvents duration (numEvents r)).length = numEvents r ∧
    (∀ i, i < numEvents r →
      (spanEvents duration (numEvents r))[i]? =
        some (i, duration * (i + 1) / (numEvents r + 1))) := by
  have hlow : (0 : Int) ≤ ⌊r * 3⌋ :=
    Int.floor_nonneg.mpr (by positivity)
  have hup : ⌊r * 3⌋ < 3 := by
    rw [Int.floor_lt]
    push_cast
    nlinarith
  refine ⟨by simp [numEvents], by unfold numEvents; omega, by simp [spanEvents], ?_⟩
  intro i hi
  simp [spanEvents, List.getElem?_range, hi]

/-- Witness for `c7_spanEvents` at `r = 0`, `duration = 100`. -/
theorem c7_witness :
    (0 : ℚ) ≤ 0 ∧ (0 : ℚ) < 1 ∧
    (1 ≤ numEvents 0 ∧ numEvents 0 ≤ 3 ∧
      (spanEvents 100 (numEvents 0)).length = numEvents 0 ∧
      (∀ i, i < numEvents 0 →
        (spanEvents 100 (numEvents 0))[i]? =
          some (i, 100 * (i + 1) / (numEvents 0 + 1)))) :=
  ⟨le_refl 0, zero_lt_one, c7_spanEvents 0 100 (le_refl 0) zero_lt_one⟩

/-! ### Claim C8 -/

/-- Claim C8 (confirmed): when `minInterval ≤ maxInterval`, for every
random draw `r ∈ [0,1)` the delay before the next scheduled cycle
satisfies `minInterval ≤ delay ≤ maxInterval`, and when
`minInterval = maxInterval` the delay equals `minInterval` exactly
(inclusive lower bound). -/
theorem c8_nextIntervalDelay (r : ℚ) (c : Config) (h0 : 0 ≤ r) (h1 : r < 1)
    (hc : c.minInterval ≤ c.maxInterval) :
    c.minInterval ≤ nextIntervalDelay r c ∧
    nextIntervalDelay r c ≤ c.maxInterval ∧
    (c.minInterval = c.maxInterval → nextIntervalDelay r c = c.minInterval) := by
  have hr0 : (0 : Int) ≤ c.maxInterval - c.minInterval := by omega
  have hcast : (0 : ℚ) ≤ ((c.maxInterval - c.minInterval : Int) : ℚ) := by
    exact_mod_cast hr0
  have hfl0 : (0 : Int) ≤ ⌊r * ((c.maxInterval - c.minInterval : Int) : ℚ)⌋ :=
    Int.floor_nonneg.mpr (mul_nonneg h0 hcast)
  have hflup : ⌊r * ((c.maxInterval - c.minInterval : Int) : ℚ)⌋ ≤
      c.maxInterval - c.minInterval := by
    rcases eq_or_lt_of_le hr0 with heq | hlt
    · rw [← heq]
      push_cast
      simp
    · have hq : (0 : ℚ) < ((c.maxInterval - c.minInterval : Int) : ℚ) := by
        exact_mod_cast hlt
      have hlt2 : r * ((c.maxInterval - c.minInterval : Int) : ℚ) <
          ((c.maxInterval - c.minInterval : Int) : ℚ) := by nlinarith
      exact le_of_lt (Int.floor_lt.mpr hlt2)
  refine ⟨?_, ?_, ?_⟩
  · unfold nextIntervalDelay
    omega
  · unfold nextIntervalDelay
    omega
  · intro he
    unfold nextIntervalDelay
    omega

/-- Witness for `c8_nextIntervalDelay` at `r = 0` with the equal-bounds
configuration `minInterval = maxInterval = 10`. -/
theorem c8_witness :
    (0 : ℚ) ≤ 0 ∧ (0 : ℚ) < 1 ∧
    ((10 : Int) ≤ 10) ∧
    ((⟨10, 10, 1⟩ : Config).minInterval ≤ nextIntervalDelay 0 ⟨10, 10, 1⟩ ∧
      nextIntervalDelay 0 ⟨10, 10, 1⟩ ≤ (⟨10, 10, 1⟩ : Config).maxInterval ∧
      ((⟨10, 10, 1⟩ : Config).minInterval = (⟨10, 10, 1⟩ : Config).maxInterval →
        nextIntervalDelay 0 ⟨10, 10, 1⟩ = (⟨10, 10, 1⟩ : Config).minInterval)) :=
  ⟨le_refl 0, zero_lt_one, by decide,
    c8_nextIntervalDelay 0 ⟨10, 10, 1⟩ (le_refl 0) zero_lt_one (by decide)⟩

/-! ### Claim C10 -/

/-- Claim C10 (confirmed): for every random draw `r ∈ [0,1)` the drawn
duration is an integer in `[50, 549]`, hence strictly positive; the
child span's completion delay `duration / 2` is strictly positive and
strictly smaller than the primary span's completion delay `duration`. -/
theorem c10_randomDuration (r : ℚ) (h0 : 0 ≤ r) (h1 : r < 1) :
    50 ≤ randomDuration r ∧ randomDuration r ≤ 549 ∧
    0 < childDelay (randomDuration r) ∧
    childDelay (randomDuration r) < (randomDuration r : ℚ) := by
  have hlow : (0 : Int) ≤ ⌊r * 500⌋ :=
    Int.floor_nonneg.mpr (by positivity)
  have hup : ⌊r * 500⌋ < 500 := by
    rw [Int.floor_lt]
    push_cast
    nlinarith
  have hd50 : 50 ≤ randomDuration r := by unfold randomDuration; omega
  have hdpos : (0 : ℚ) < (randomDuration r : ℚ) := by
    have : 0 < randomDuration r := by omega
    exact_mod_cast this
  refine ⟨hd50, by unfold randomDuration; omega, ?_, ?_⟩
  · unfold childDelay
    positivity
  · unfold childDelay
    linarith

/-- Witness for `c10_randomDuration` at `r = 0` (duration 50, child
delay 25). -/
theorem c10_witness :
    (0 : ℚ) ≤ 0 ∧ (0 : ℚ) < 1 ∧
    (50 ≤ randomDuration 0 ∧ randomDuration 0 ≤ 549 ∧
      0 < childDelay (randomDuration 0) ∧
      childDelay (randomDuration 0) < (randomDuration 0 : ℚ)) :=
  ⟨le_refl 0, zero_lt_one, c10_randomDuration 0 (le_refl 0) zero_lt_one⟩

end LoadTesting

namespace Backend

/-! ### Claim C9 -/

/-- Claim C9 (confirmed): the handler shared by the three collector
routes sends exactly one terminal response per request (it is a total
function into a single `HttpResponse`), dispatched by method: `OPTIONS`
gets HTTP 204 with an empty body and all four CORS headers present; any
method other than `POST` and `OPTIONS` gets HTTP 405 with an
`Allow: POST` header; `POST` gets HTTP 200 with body `\x7b\x7d` and its
request body fully drained (`drained` equals the body's byte length). -/
theorem c9_handleEndpoint (method : String) (reqBody : List UInt8) :
    ((handleEndpoint "OPTIONS" reqBody).status = 204 ∧
      (handleEndpoint "OPTIONS" reqBody).body = "" ∧
      ∀ hdr ∈ corsHeaders, hdr ∈ (handleEndpoint "OPTIONS" reqBody).headers) ∧
    (method ≠ "OPTIONS" → method ≠ "POST" →
      (handleEndpoint method reqBody).status = 405 ∧
      ("Allow", "POST") ∈ (handleEndpoint method reqBody).headers) ∧
    ((handleEndpoint "POST" reqBody).status = 200 ∧
      (handleEndpoint "POST" reqBody).body = "\x7b\x7d" ∧
      (handleEndpoint "POST" reqBody).drained = reqBody.length) := by
  refine ⟨⟨rfl, rfl, ?_⟩, ?_, rfl, rfl, rfl⟩
  · intro hdr hh
    exact hh
  · intro hopt hpost
    rw [handleEndpoint, if_neg hopt, if_pos hpost]
    exact ⟨rfl, by simp [corsHeaders]⟩

/-- Witness for `c9_handleEndpoint`: a `GET` is rejected with 405, and a
`POST` with a 100-byte body gets 200, body `\x7b\x7d`, all 100 bytes
drained. -/
theorem c9_witness :
    (handleEndpoint "GET" (List.replicate 100 (0 : UInt8))).status = 405 ∧
    (handleEndpoint "POST" (List.replicate 100 (0 : UInt8))).status = 200 ∧
    (handleEndpoint "POST" (List.replicate 100 (0 : UInt8))).drained = 100 := by
  have h := c9_handleEndpoint "GET" (List.replicate 100 (0 : UInt8))
  refine ⟨(h.2.1 (by decide) (by decide)).1, h.2.2.1, ?_⟩
  rw [h.2.2.2.2]
  simp

end Backend
